import Mathlib

/-
  Verification of the simulation core of the "monkey_fire" arcade shooter.

  The Rust sources (src/main.rs, src/player.rs, src/enemy/mod.rs,
  src/components.rs) are shallowly embedded below.  Machine floats (f32/f64)
  are modelled as exact rationals where the code only performs field
  arithmetic and order comparisons, and as real numbers for the
  trigonometric formation movement.  Rust u32/usize arithmetic is modelled
  on Nat with explicit wrapping (mod 2^32) respectively saturation,
  mirroring the operations the code actually uses.
-/

namespace MonkeyFire

/-- Constant TIME_STEP from src/main.rs (`1.0 / 60.0`). -/
def TIME_STEP : ℚ := 1 / 60

/-- Constant BASE_SPEED from src/main.rs (`500.0`). -/
def BASE_SPEED : ℚ := 500

/-- Constant PLAYER_RESPAWN_DELAY from src/main.rs (`2.0`, in seconds). -/
def PLAYER_RESPAWN_DELAY : ℚ := 2

/-- Constant ENEMY_MAX from src/main.rs (`2`). -/
def ENEMY_MAX : Nat := 2

/-- Constant EXPLOSION_LEN from src/main.rs (`10`). -/
def EXPLOSION_LEN : Nat := 10

/-- Constant SPRITE_SCALE from src/main.rs (`0.5`). -/
def SPRITE_SCALE : ℚ := 1 / 2

/-- Constant PLAYER_SIZE from src/main.rs (`(140.0, 168.0)`). -/
def PLAYER_SIZE : ℚ × ℚ := (140, 168)

/-- Constant MARGIN from `movable_system` in src/main.rs (`50.0`). -/
def MARGIN : ℚ := 50

/-- Modulus of Rust's u32 type. -/
def U32_MOD : Nat := 4294967296

/-- Maximum value of Rust's usize type (64-bit target). -/
def USIZE_MAX : Nat := 18446744073709551615

/-- Rust `u32::saturating_add` on in-range naturals. -/
def satAddU32 (a b : Nat) : Nat := min (a + b) (U32_MOD - 1)

/-- Rust `u32::saturating_sub` on in-range naturals (Nat subtraction already
clamps at zero). -/
def satSubU32 (a b : Nat) : Nat := a - b

/-- Rust release-mode wrapping decrement `c -= 1` on a u32 counter
(src/main.rs line 278, `enemy_count.0 -= 1`). -/
def wrapSub1U32 (c : Nat) : Nat := (c + (U32_MOD - 1)) % U32_MOD

/-- Exit policy enum `OnOutsideWindow`.  Its declaration lives in the (not
shipped) part of components.rs, but its exact two variants are forced by the
exhaustive match in `movable_system` (src/main.rs lines 220-238) and the
construction sites in player.rs / enemy/mod.rs. -/
inductive OnOutsideWindow where
  | Despawn
  | Wrap
deriving DecidableEq

/-- Component `Velocity{x, y}` from src/components.rs. -/
structure Velocity where
  x : ℚ
  y : ℚ
deriving DecidableEq

/-- System `movable_system` (src/main.rs lines 200-240), for one entity:
move by velocity, then apply the exit policy.  Returns `none` when the
entity is despawned, otherwise the new translation.  The conditions are
transcribed exactly as written in the source, including the swapped
`top_of_screen` / `bottom_of_screen` tests on lines 217-218. -/
def movable_system (w h : ℚ) (v : Velocity) (px py : ℚ)
    (policy : OnOutsideWindow) : Option (ℚ × ℚ) :=
  let x := px + v.x * TIME_STEP * BASE_SPEED
  let y := py + v.y * TIME_STEP * BASE_SPEED
  let left : ℚ := -w / 2 - MARGIN
  let right : ℚ := w / 2 + MARGIN
  let top : ℚ := h / 2 + MARGIN
  let bottom : ℚ := -h / 2 - MARGIN
  match policy with
  | OnOutsideWindow.Despawn =>
      if x < left ∨ x > right ∨ y < -h / 2 - MARGIN ∨ y > h / 2 + MARGIN
      then none else some (x, y)
  | OnOutsideWindow.Wrap =>
      some (if x < left then right else if x > right then left else x,
            if y < -h / 2 - MARGIN then bottom
            else if y > h / 2 + MARGIN then top else y)

/-- Per-entity frame update of `animate_system` (src/main.rs lines 375-382),
run when the animation timer has finished: saturating increment, clamp below
the range start up to the start, wrap above the range end to the start. -/
def animate_system_update (a b idx : Nat) : Nat :=
  let i1 := min (idx + 1) USIZE_MAX
  let i2 := if i1 < a then a else i1
  if i2 > b then a else i2

/-- One tick of `animate_system` (src/main.rs lines 371-385) for one entity:
the frame update only runs when the timer has finished this tick. -/
def animate_system (finished : Bool) (a b idx : Nat) : Nat :=
  if finished then animate_system_update a b idx else idx

/-- Player animation state enum from src/player.rs. -/
inductive PlayerAnimation where
  | Idle
  | Walking
deriving DecidableEq

/-- System `player_animate` (src/player.rs lines 159-167): the frame range
installed on the player entity for each animation state
(`Idle => 6..=6`, `Walking => 0..=3`). -/
def player_animate : PlayerAnimation → Nat × Nat
  | PlayerAnimation.Idle => (6, 6)
  | PlayerAnimation.Walking => (0, 3)

/-- One timer expiry of `explosion_animation_system` (src/main.rs lines
355-369) for one explosion entity.  State is (frame index, alive?); a
despawned entity is no longer matched by the query, hence left unchanged.
On expiry the index is incremented and the entity despawns as soon as the
index reaches `EXPLOSION_LEN`. -/
def explosion_animation_system (st : Nat × Bool) : Nat × Bool :=
  if st.2 then
    let index := st.1 + 1
    (index, decide (index < EXPLOSION_LEN))
  else st

/-- State of the enemy spawner: the `EnemyCount` resource together with the
list of live enemy spawn positions. -/
structure SpawnState where
  count : Nat
  enemies : List (ℚ × ℚ)
deriving DecidableEq

/-- System `enemy_spawn_system` (src/enemy/mod.rs lines 33-64): when the
live-enemy counter is strictly below `ENEMY_MAX`, spawn one enemy at the
formation's start point and increment the counter; otherwise do nothing.
The start point produced by the `FormationMaker` (enemy/formation.rs, not
shipped) is passed in as an oracle input; the claim does not depend on it. -/
def enemy_spawn_system (start : ℚ × ℚ) (st : SpawnState) : SpawnState :=
  if st.count < ENEMY_MAX then ⟨st.count + 1, st.enemies ++ [start]⟩ else st

/-- Any sequence of enemy spawn ticks, one formation start point per tick. -/
def runSpawnTicks (st : SpawnState) (starts : List (ℚ × ℚ)) : SpawnState :=
  starts.foldl (fun s p => enemy_spawn_system p s) st

/-- Resource `PlayerState` from src/main.rs lines 59-72.  The source field
`on` is a Lean keyword, so it is called `isOn` here; `last_shot` keeps `-1`
as the never-shot sentinel. -/
structure PlayerState where
  isOn : Bool
  lastShot : ℚ
deriving DecidableEq

/-- Method `PlayerState::shot` (src/main.rs lines 75-78). -/
def PlayerState.shot (_st : PlayerState) (time : ℚ) : PlayerState :=
  ⟨false, time⟩

/-- Method `PlayerState::spawned` (src/main.rs lines 80-83). -/
def PlayerState.spawned (_st : PlayerState) : PlayerState :=
  ⟨true, -1⟩

/-- Translation at which `player_spawn_system` places a new player
(src/player.rs line 78): x = 0, y = bottom of screen plus half the scaled
player height. -/
def playerSpawnPos (winH : ℚ) : ℚ × ℚ :=
  (0, -winH / 2 + PLAYER_SIZE.2 / 2 * SPRITE_SCALE)

/-- System `player_spawn_system` (src/player.rs lines 58-97): spawn a player
(returning its position) exactly when no live player exists and the shot
sentinel or respawn delay allows it, marking the state on. -/
def player_spawn_system (winH : ℚ) (st : PlayerState) (now : ℚ) :
    PlayerState × Option (ℚ × ℚ) :=
  if st.isOn = false ∧ (st.lastShot = -1 ∨ now > st.lastShot + PLAYER_RESPAWN_DELAY)
  then (st.spawned, some (playerSpawnPos winH))
  else (st, none)

/-- A sequence of respawn-check ticks (the FixedTimestep(0.5) schedule),
tracking only the `PlayerState` resource. -/
def runRespawnChecks (winH : ℚ) (st : PlayerState) (ts : List ℚ) : PlayerState :=
  ts.foldl (fun s t => (player_spawn_system winH s t).1) st

/-- View of one entity as seen by the collision systems: id, translation,
`SpriteSize` and scale. -/
structure EntityView where
  id : Nat
  x : ℚ
  y : ℚ
  w : ℚ
  h : ℚ
  sx : ℚ
  sy : ℚ
deriving DecidableEq

/-- Bevy's `sprite::collide_aabb::collide` (external collaborator; spec
section 4.3 fixes its half-extent semantics): two AABBs given by centre and
full size overlap iff they strictly overlap on both axes. -/
def collide (ax ay aw ah bx byy bw bh : ℚ) : Bool :=
  decide (ax - aw / 2 < bx + bw / 2) && decide (ax + aw / 2 > bx - bw / 2)
    && decide (ay - ah / 2 < byy + bh / 2) && decide (ay + ah / 2 > byy - bh / 2)

/-- The collision test as performed in src/main.rs lines 257-273: sizes are
scaled by the componentwise absolute value of the entity's scale. -/
def entCollide (a b : EntityView) : Bool :=
  collide a.x a.y (a.w * |a.sx|) (a.h * |a.sy|) b.x b.y (b.w * |b.sx|) (b.h * |b.sy|)

/-- State threaded through `player_fire_hit_enemy_system`: the local
`despawned_entities` set, the `EnemyCount` and `Scoreboard` resources, and
the `ExplosionToSpawn` requests issued this pass. -/
structure CombatState where
  despawned : List Nat
  count : Nat
  score : Nat
  explosions : List (ℚ × ℚ)
deriving DecidableEq

/-- Body of the inner enemy loop of `player_fire_hit_enemy_system`
(src/main.rs lines 259-289): skip already-despawned entities, otherwise on
AABB overlap despawn enemy and fire, decrement the enemy counter (plain u32
`-= 1`), saturating-increment the score, and enqueue an explosion at the
enemy's position. -/
def hitStep (fire : EntityView) (st : CombatState) (e : EntityView) : CombatState :=
  if e.id ∈ st.despawned ∨ fire.id ∈ st.despawned then st
  else if entCollide fire e then
    ⟨e.id :: fire.id :: st.despawned, wrapSub1U32 st.count, satAddU32 st.score 1,
      st.explosions ++ [(e.x, e.y)]⟩
  else st

/-- Body of the outer fire loop of `player_fire_hit_enemy_system`
(src/main.rs lines 252-290): skip a fire already despawned this pass,
otherwise run the inner enemy loop. -/
def fireLoop (enemies : List EntityView) (st : CombatState) (fire : EntityView) :
    CombatState :=
  if fire.id ∈ st.despawned then st else enemies.foldl (hitStep fire) st

/-- System `player_fire_hit_enemy_system` (src/main.rs lines 243-291): one
full pass over the snapshots of player fires and enemies, starting from an
empty despawned set. -/
def player_fire_hit_enemy_system (fires enemies : List EntityView)
    (count score : Nat) : CombatState :=
  fires.foldl (fireLoop enemies) ⟨[], count, score, []⟩

/-- Result of `enemy_fire_hit_player_system`: new score, whether the player
was despawned, the despawned fire (if any), the updated `PlayerState`, and
the explosion requests. -/
structure PlayerHitResult where
  score : Nat
  playerDespawned : Bool
  despawnedFire : Option Nat
  state : PlayerState
  explosions : List (ℚ × ℚ)
deriving DecidableEq

/-- System `enemy_fire_hit_player_system` (src/main.rs lines 294-331): if a
single player exists, scan enemy fires for the first AABB overlap; on a hit
despawn player and fire, record the shot time, saturating-decrement the
score and enqueue an explosion, then stop scanning (`break`). -/
def enemy_fire_hit_player_system (player : Option EntityView)
    (fires : List EntityView) (score : Nat) (st : PlayerState) (now : ℚ) :
    PlayerHitResult :=
  match player with
  | none => ⟨score, false, none, st, []⟩
  | some p =>
      match fires.find? (fun fr => entCollide fr p) with
      | none => ⟨score, false, none, st, []⟩
      | some fr =>
          ⟨satSubU32 score 1, true, some fr.id, PlayerState.shot st now, [(p.x, p.y)]⟩

/-- Sample player fire (PLAYER_FIRE_SIZE 70x70, at the origin, unit scale). -/
def sampleFire : EntityView := ⟨0, 0, 0, 70, 70, 1, 1⟩

/-- Sample enemy (ENEMY_SIZE 256x222, at the origin, unit scale). -/
def sampleEnemy : EntityView := ⟨1, 0, 0, 256, 222, 1, 1⟩

/-- Component `Formation{start, pivot, radius, angle, speed}`.  Its record
declaration lives in enemy/formation.rs (not shipped); the fields and their
types are forced by the uses in `enemy_movement_system`
(src/enemy/mod.rs lines 106-147) and match the spec's data model.  Floats
are modelled as reals because the movement formula uses cos/sin/sqrt. -/
structure Formation where
  startX : ℝ
  startY : ℝ
  pivotX : ℝ
  pivotY : ℝ
  radiusX : ℝ
  radiusY : ℝ
  angle : ℝ
  speed : ℝ

/-- Orbit direction from src/enemy/mod.rs line 112: 1 (counter clockwise)
when `formation.start.0 < 0`, else -1. -/
noncomputable def dirOf (f : Formation) : ℝ :=
  if f.startX < 0 then 1 else -1

/-- The advanced phase angle from src/enemy/mod.rs lines 115-116. -/
noncomputable def advancedAngle (f : Formation) : ℝ :=
  f.angle + dirOf f * f.speed * (TIME_STEP : ℝ) / (min f.radiusX f.radiusY * Real.pi / 2)

/-- Target ellipse x coordinate (src/enemy/mod.rs line 118). -/
noncomputable def targetX (f : Formation) : ℝ :=
  f.radiusX * Real.cos (advancedAngle f) + f.pivotX

/-- Target ellipse y coordinate (src/enemy/mod.rs line 119). -/
noncomputable def targetY (f : Formation) : ℝ :=
  f.radiusY * Real.sin (advancedAngle f) + f.pivotY

/-- Per-tick distance cap `max_distance = TIME_STEP * formation.speed`
(src/enemy/mod.rs line 109). -/
noncomputable def maxDistance (f : Formation) : ℝ :=
  (TIME_STEP : ℝ) * f.speed

/-- Distance from the current position to the target ellipse point
(src/enemy/mod.rs lines 121-123). -/
noncomputable def distTo (f : Formation) (xorg yorg : ℝ) : ℝ :=
  Real.sqrt ((xorg - targetX f) * (xorg - targetX f)
    + (yorg - targetY f) * (yorg - targetY f))

/-- The `distance_ratio` of src/enemy/mod.rs lines 124-128 with its
explicit zero-distance branch. -/
noncomputable def distanceRatio (f : Formation) (xorg yorg : ℝ) : ℝ :=
  if distTo f xorg yorg ≠ 0 then maxDistance f / distTo f xorg yorg else 0

/-- System `enemy_movement_system` (src/enemy/mod.rs lines 106-147) for one
enemy: step toward the target ellipse point capped at `max_distance`, clamp
per axis against the target, and commit the advanced angle only when the
remaining distance is under the speed-scaled threshold.  Returns the new
translation and the updated formation. -/
noncomputable def enemy_movement_system (f : Formation) (xorg yorg : ℝ) :
    ℝ × ℝ × Formation :=
  let xdst := targetX f
  let ydst := targetY f
  let dx := xorg - xdst
  let dy := yorg - ydst
  let x := xorg - dx * distanceRatio f xorg yorg
  let x := if dx > 0 then max x xdst else min x xdst
  let y := yorg - dy * distanceRatio f xorg yorg
  let y := if dy > 0 then max y ydst else min y ydst
  let f' := if distTo f xorg yorg < maxDistance f * f.speed / 20
            then { f with angle := advancedAngle f } else f
  (x, y, f')

/-- Sample formation: start (-1, 0), pivot (0, 0), radii (1, 1), angle 0,
speed 0 (so its advanced angle is again 0 and its target point is (1, 0)). -/
noncomputable def sampleFormation : Formation :=
  ⟨-1, 0, 0, 0, 1, 1, 0, 0⟩

/-- Component archetype of a spawned entity: the marker tags it carries and
its `Movable` component, if any. -/
structure Archetype where
  player : Bool
  enemy : Bool
  fire : Bool
  fromPlayer : Bool
  fromEnemy : Bool
  explosion : Bool
  explosionPending : Bool
  movable : Option OnOutsideWindow
deriving DecidableEq

/-- Components inserted by `player_spawn_system` (src/player.rs lines
70-93): `Player`, `SpriteSize`, `Movable{Wrap}`, `Velocity`, `Animate`. -/
def playerArchetype : Archetype :=
  ⟨true, false, false, false, false, false, false, some OnOutsideWindow.Wrap⟩

/-- Components inserted by `enemy_spawn_system` (src/enemy/mod.rs lines
44-60): `Enemy`, `Formation`, `SpriteSize`, `Animate` - and no `Movable`. -/
def enemyArchetype : Archetype :=
  ⟨false, true, false, false, false, false, false, none⟩

/-- The five places in the program that call `despawn` (src/main.rs lines
223, 276/280, 316/319, 351, 365). -/
inductive DespawnSite where
  | movableSystem
  | playerFireHitEnemy
  | enemyFireHitPlayer
  | explosionSpawn
  | explosionAnim
deriving DecidableEq

/-- Whether a despawn site can despawn an entity of a given archetype: read
off each system's query filters and from the despawn conditions
(`movable_system` only despawns under the `Despawn` exit policy). -/
def canDespawn : DespawnSite → Archetype → Bool
  | DespawnSite.movableSystem, a => decide (a.movable = some OnOutsideWindow.Despawn)
  | DespawnSite.playerFireHitEnemy, a => (a.fire && a.fromPlayer) || a.enemy
  | DespawnSite.enemyFireHitPlayer, a => a.player || (a.fire && a.fromEnemy)
  | DespawnSite.explosionSpawn, a => a.explosionPending
  | DespawnSite.explosionAnim, a => a.explosion

/- ------------------------------------------------------------------ -/
/- Theorems                                                           -/
/- ------------------------------------------------------------------ -/

/-- Claim C1.  The claim states that under the `Wrap` exit policy a y
coordinate beyond one bound is reset to the opposite bound, as happens for
x.  The code instead clamps y to the very bound that was exceeded, because
the `top_of_screen` / `bottom_of_screen` conditions on src/main.rs lines
217-218 are swapped relative to their names: with window 1280x720 and
margin 50 (y band [-410, 410]) an entity at y = -500 with zero velocity is
reset to y = -410 (the exceeded bottom bound), not to the claimed opposite
bound +410. -/
theorem movable_wrap_vertical_clamps_same_bound :
    (-500 : ℚ) < -720 / 2 - MARGIN
    ∧ movable_system 1280 720 ⟨0, 0⟩ 0 (-500) OnOutsideWindow.Wrap = some (0, -410)
    ∧ ((-410 : ℚ) ≠ 410) := by
  refine ⟨by norm_num [MARGIN], ?_, by norm_num⟩
  norm_num [movable_system, TIME_STEP, BASE_SPEED, MARGIN]

/-- Helper: the spawn-tick invariant that the counter matches the number of
live enemies and stays at most `ENEMY_MAX` is preserved by any sequence of
spawn ticks. -/
theorem runSpawnTicks_invariant (starts : List (ℚ × ℚ)) (st : SpawnState)
    (hc : st.count = st.enemies.length) (hm : st.count ≤ ENEMY_MAX) :
    (runSpawnTicks st starts).count = (runSpawnTicks st starts).enemies.length
      ∧ (runSpawnTicks st starts).count ≤ ENEMY_MAX := by
  induction starts generalizing st with
  | nil => exact ⟨hc, hm⟩
  | cons p ps ih =>
      have hstep : runSpawnTicks st (p :: ps)
          = runSpawnTicks (enemy_spawn_system p st) ps := rfl
      rw [hstep]
      by_cases h : st.count < ENEMY_MAX
      · refine ih _ ?_ ?_
        · simp only [enemy_spawn_system, if_pos h]
          simp [hc]
        · simp only [enemy_spawn_system, if_pos h]
          simp only [ENEMY_MAX] at h ⊢
          omega
      · refine ih _ ?_ ?_ <;> simp only [enemy_spawn_system, if_neg h] <;> assumption

/-- Claim C4: a spawn tick below the cap spawns exactly one enemy and
increments the counter, a spawn tick at or above the cap does nothing, and
across any sequence of spawn ticks the live enemy population never exceeds
`ENEMY_MAX`. -/
theorem enemy_population_capped (p : ℚ × ℚ)
    (st1 : SpawnState) (h1 : st1.count < ENEMY_MAX)
    (st2 : SpawnState) (h2 : ENEMY_MAX ≤ st2.count)
    (st : SpawnState) (hc : st.count = st.enemies.length) (hm : st.count ≤ ENEMY_MAX)
    (starts : List (ℚ × ℚ)) :
    enemy_spawn_system p st1 = ⟨st1.count + 1, st1.enemies ++ [p]⟩
    ∧ enemy_spawn_system p st2 = st2
    ∧ (runSpawnTicks st starts).enemies.length ≤ ENEMY_MAX
    ∧ (runSpawnTicks st starts).count ≤ ENEMY_MAX := by
  obtain ⟨hlen, hcap⟩ := runSpawnTicks_invariant starts st hc hm
  refine ⟨by simp [enemy_spawn_system, h1], ?_, ?_, hcap⟩
  · simp [enemy_spawn_system, Nat.not_lt.mpr h2]
  · omega

/-- Witness for claim C4 at concrete inputs. -/
theorem enemy_population_capped_witness :
    (⟨0, []⟩ : SpawnState).count < ENEMY_MAX
    ∧ ENEMY_MAX ≤ (⟨2, [(0, 0), (1, 1)]⟩ : SpawnState).count
    ∧ (⟨0, []⟩ : SpawnState).count = (⟨0, []⟩ : SpawnState).enemies.length
    ∧ (⟨0, []⟩ : SpawnState).count ≤ ENEMY_MAX
    ∧ (enemy_spawn_system (5, 5) ⟨0, []⟩
        = ⟨(⟨0, []⟩ : SpawnState).count + 1, (⟨0, []⟩ : SpawnState).enemies ++ [(5, 5)]⟩
      ∧ enemy_spawn_system (5, 5) ⟨2, [(0, 0), (1, 1)]⟩ = ⟨2, [(0, 0), (1, 1)]⟩
      ∧ (runSpawnTicks ⟨0, []⟩ [(5, 5), (6, 6), (7, 7)]).enemies.length ≤ ENEMY_MAX
      ∧ (runSpawnTicks ⟨0, []⟩ [(5, 5), (6, 6), (7, 7)]).count ≤ ENEMY_MAX) :=
  ⟨by decide, by decide, by decide, by decide,
    enemy_population_capped (5, 5) ⟨0, []⟩ (by decide) ⟨2, [(0, 0), (1, 1)]⟩ (by decide)
      ⟨0, []⟩ (by decide) (by decide) [(5, 5), (6, 6), (7, 7)]⟩

/-- Claim C5, counterexample.  The frame index is not always inside the
current range: when `player_animate` switches the player range from idle
`[6, 6]` (where index 6 is legal) to walking `[0, 3]`, a tick on which the
animation timer has not finished leaves the index at 6, outside `[0, 3]`. -/
theorem frame_index_transiently_outside_range :
    player_animate PlayerAnimation.Idle = (6, 6)
    ∧ 6 ≤ 6
    ∧ player_animate PlayerAnimation.Walking = (0, 3)
    ∧ animate_system false 0 3 6 = 6
    ∧ ¬ (6 ≤ 3) := by
  refine ⟨rfl, le_refl 6, rfl, rfl, by omega⟩

/-- Claim C5 as amended: whenever the animation timer fires, the update of
`animate_system` puts the frame index inside the range `[a, b]` (for a valid
range `a ≤ b`); on a tick where the timer has not finished the index is left
unchanged, so it can sit outside a freshly switched range only until the
next timer expiry. -/
theorem animate_update_lands_in_range (a b idx : Nat) (h : a ≤ b) :
    a ≤ animate_system_update a b idx
    ∧ animate_system_update a b idx ≤ b
    ∧ animate_system false a b idx = idx := by
  refine ⟨?_, ?_, rfl⟩ <;>
    · simp only [animate_system_update, USIZE_MAX]
      split_ifs <;> omega

/-- Witness for the amended claim C5 at concrete inputs. -/
theorem animate_update_lands_in_range_witness :
    0 ≤ 3
    ∧ (0 ≤ animate_system_update 0 3 6
      ∧ animate_system_update 0 3 6 ≤ 3
      ∧ animate_system false 0 3 6 = 6) :=
  ⟨by decide, animate_update_lands_in_range 0 3 6 (by decide)⟩

/-- Claim C8: starting from frame 0, after n timer expiries an explosion
entity has frame index `min n 10` and is alive exactly while the index is
below `EXPLOSION_LEN = 10`; while alive, each expiry increments the index by
exactly 1 and the entity despawns exactly when the index reaches 10. -/
theorem explosion_despawns_at_len (n i : Nat) :
    explosion_animation_system^[n] (0, true)
        = (min n EXPLOSION_LEN, decide (n < EXPLOSION_LEN))
    ∧ explosion_animation_system (i, true) = (i + 1, decide (i + 1 < EXPLOSION_LEN)) := by
  constructor
  · induction n with
    | zero => simp [EXPLOSION_LEN]
    | succ n ih =>
        rw [Function.iterate_succ_apply', ih]
        simp only [EXPLOSION_LEN] at *
        by_cases h : n < 10
        · simp [explosion_animation_system, EXPLOSION_LEN, h, Nat.min_eq_left h.le,
            Nat.min_eq_left (show n + 1 ≤ 10 by omega)]
        · simp [explosion_animation_system, EXPLOSION_LEN, h,
            Nat.min_eq_right (show 10 ≤ n by omega),
            Nat.min_eq_right (show 10 ≤ n + 1 by omega),
            show ¬ n + 1 < 10 by omega]
  · rfl

/-- Witness for claim C8 at concrete inputs. -/
theorem explosion_despawns_at_len_witness :
    explosion_animation_system^[12] (0, true)
        = (min 12 EXPLOSION_LEN, decide (12 < EXPLOSION_LEN))
    ∧ explosion_animation_system (3, true) = (3 + 1, decide (3 + 1 < EXPLOSION_LEN)) :=
  explosion_despawns_at_len 12 3

/-- Claim C10: the player is spawned with `Movable{Wrap}` and enemies carry
no `Movable` component at all; `movable_system` never despawns a `Wrap`
entity; and among the five despawn sites of the program the only one able to
despawn a player-archetype entity is the enemy-fire-vs-player pass and the
only one able to despawn an enemy-archetype entity is the
player-fire-vs-enemy pass. -/
theorem player_enemy_despawn_paths (s : DespawnSite) (w h : ℚ) (v : Velocity)
    (px py : ℚ) :
    playerArchetype.movable = some OnOutsideWindow.Wrap
    ∧ enemyArchetype.movable = none
    ∧ canDespawn DespawnSite.movableSystem playerArchetype = false
    ∧ canDespawn DespawnSite.movableSystem enemyArchetype = false
    ∧ canDespawn s playerArchetype = decide (s = DespawnSite.enemyFireHitPlayer)
    ∧ canDespawn s enemyArchetype = decide (s = DespawnSite.playerFireHitEnemy)
    ∧ (movable_system w h v px py OnOutsideWindow.Wrap).isSome = true := by
  refine ⟨rfl, rfl, by decide, by decide, ?_, ?_, rfl⟩
  · cases s <;> decide
  · cases s <;> decide

/-- Helper: once the active fire is in the despawned set, the inner enemy
loop is the identity. -/
theorem foldl_hitStep_frozen (g : EntityView) (es : List EntityView)
    (st : CombatState) (h : g.id ∈ st.despawned) :
    es.foldl (hitStep g) st = st := by
  induction es with
  | nil => rfl
  | cons e es ih =>
      rw [List.foldl_cons, show hitStep g st e = st from by
        unfold hitStep; rw [if_pos (Or.inr h)]]
      exact ih

/-- Helper: one run of the inner enemy loop creates at most one explosion
request, because a hit puts the fire's id into the despawned set and every
later iteration skips it. -/
theorem foldl_hitStep_explosions (g : EntityView) (es : List EntityView)
    (st : CombatState) :
    (es.foldl (hitStep g) st).explosions.length ≤ st.explosions.length + 1 := by
  induction es generalizing st with
  | nil => exact Nat.le_succ _
  | cons e es ih =>
      rw [List.foldl_cons]
      by_cases h1 : e.id ∈ st.despawned ∨ g.id ∈ st.despawned
      · rw [show hitStep g st e = st from by unfold hitStep; rw [if_pos h1]]
        exact ih st
      · by_cases h2 : entCollide g e = true
        · rw [show hitStep g st e
              = ⟨e.id :: g.id :: st.despawned, wrapSub1U32 st.count,
                  satAddU32 st.score 1, st.explosions ++ [(e.x, e.y)]⟩ from by
            unfold hitStep; rw [if_neg h1, if_pos h2]]
          rw [foldl_hitStep_frozen g es _
            (List.mem_cons_of_mem _ (List.mem_cons_self _ _))]
          simp
        · rw [show hitStep g st e = st from by
            unfold hitStep; rw [if_neg h1, if_neg h2]]
          exact ih st

/-- Claim C2: a player fire overlapping an enemy (run on the singleton
snapshots, counter at least 1) despawns both, decrements the live-enemy
counter by exactly 1, saturating-increments the score by 1 and enqueues
exactly one explosion at the enemy's position; moreover a fire creates at
most one explosion per pass, and a fire or enemy already in the
despawned-id set is skipped. -/
theorem player_fire_hit_enemy_collision_effects (f e : EntityView) (c s : Nat)
    (hcol : entCollide f e = true) (hc1 : 1 ≤ c) (hc2 : c < U32_MOD)
    (g : EntityView) (es : List EntityView) (dl : List Nat) (cc ss : Nat)
    (ex : List (ℚ × ℚ)) :
    player_fire_hit_enemy_system [f] [e] c s
        = ⟨[e.id, f.id], c - 1, satAddU32 s 1, [(e.x, e.y)]⟩
    ∧ (fireLoop es ⟨dl, cc, ss, ex⟩ g).explosions.length ≤ ex.length + 1
    ∧ fireLoop es ⟨g.id :: dl, cc, ss, ex⟩ g = ⟨g.id :: dl, cc, ss, ex⟩
    ∧ hitStep g ⟨e.id :: dl, cc, ss, ex⟩ e = ⟨e.id :: dl, cc, ss, ex⟩ := by
  have hw : wrapSub1U32 c = c - 1 := by
    simp only [wrapSub1U32, U32_MOD] at *
    omega
  refine ⟨?_, ?_, ?_, ?_⟩
  · show fireLoop [e] ⟨[], c, s, []⟩ f = _
    unfold fireLoop
    rw [if_neg (List.not_mem_nil _)]
    show hitStep f ⟨[], c, s, []⟩ e = _
    unfold hitStep
    rw [if_neg (by simp), if_pos hcol, hw]
    rfl
  · unfold fireLoop
    by_cases h : g.id ∈ dl
    · rw [if_pos h]
      exact Nat.le_succ _
    · rw [if_neg h]
      exact foldl_hitStep_explosions g es _
  · unfold fireLoop
    rw [if_pos (List.mem_cons_self _ _)]
  · unfold hitStep
    rw [if_pos (Or.inl (List.mem_cons_self _ _))]

/-- Helper: the sample fire and sample enemy (both centred at the origin)
overlap. -/
theorem sample_collision : entCollide sampleFire sampleEnemy = true := by
  norm_num [entCollide, collide, sampleFire, sampleEnemy]

/-- Witness for claim C2 at concrete inputs. -/
theorem player_fire_hit_enemy_collision_effects_witness :
    entCollide sampleFire sampleEnemy = true ∧ 1 ≤ 1 ∧ 1 < U32_MOD
    ∧ (player_fire_hit_enemy_system [sampleFire] [sampleEnemy] 1 0
          = ⟨[sampleEnemy.id, sampleFire.id], 1 - 1, satAddU32 0 1,
              [(sampleEnemy.x, sampleEnemy.y)]⟩
      ∧ (fireLoop [] ⟨[], 0, 0, []⟩ sampleFire).explosions.length
          ≤ ([] : List (ℚ × ℚ)).length + 1
      ∧ fireLoop [] ⟨sampleFire.id :: [], 0, 0, []⟩ sampleFire
          = ⟨sampleFire.id :: [], 0, 0, []⟩
      ∧ hitStep sampleFire ⟨sampleEnemy.id :: [], 0, 0, []⟩ sampleEnemy
          = ⟨sampleEnemy.id :: [], 0, 0, []⟩) :=
  ⟨sample_collision, by decide, by decide,
    player_fire_hit_enemy_collision_effects sampleFire sampleEnemy 1 0
      sample_collision (by decide) (by decide) sampleFire [] [] 0 0 []⟩

/-- Claim C3, counterexample.  The live-enemy counter decrement is the plain
u32 `-= 1` of src/main.rs line 278, not a saturating subtraction: running
the player-fire-vs-enemy pass with the counter at 0 wraps it to
4294967295 = 2^32 - 1 instead of clamping it at zero. -/
theorem enemy_count_decrement_wraps_at_zero :
    (player_fire_hit_enemy_system [sampleFire] [sampleEnemy] 0 0).count = 4294967295
    ∧ (4294967295 : Nat) ≠ 0 := by
  constructor
  · show (fireLoop [sampleEnemy] ⟨[], 0, 0, []⟩ sampleFire).count = 4294967295
    unfold fireLoop
    rw [if_neg (List.not_mem_nil _)]
    show (hitStep sampleFire ⟨[], 0, 0, []⟩ sampleEnemy).count = 4294967295
    unfold hitStep
    rw [if_neg (by simp), if_pos sample_collision]
    norm_num [wrapSub1U32, U32_MOD]
  · decide

/-- Claim C3 as amended: the score updates use saturating arithmetic - in
particular enemy-fire hits on the player at score 0 leave the score at 0 -
while the live-enemy counter uses a plain wrapping u32 decrement, which does
not underflow as long as the counter is positive (as it is whenever a live
enemy exists, since it counts live enemies). -/
theorem score_saturates_and_count_decrements (p : EntityView)
    (fires : List EntityView) (st : PlayerState) (now : ℚ) (c n : Nat)
    (hc1 : 1 ≤ c) (hc2 : c < U32_MOD) :
    (enemy_fire_hit_player_system (some p) fires 0 st now).score = 0
    ∧ satSubU32 0 n = 0
    ∧ wrapSub1U32 c = c - 1
    ∧ c - 1 < c := by
  refine ⟨?_, by simp [satSubU32], ?_, ?_⟩
  · unfold enemy_fire_hit_player_system
    cases h : fires.find? (fun fr => entCollide fr p) <;> simp [h, satSubU32]
  · simp only [wrapSub1U32, U32_MOD] at *
    omega
  · omega

/-- Witness for the amended claim C3 at concrete inputs. -/
theorem score_saturates_and_count_decrements_witness :
    1 ≤ 1 ∧ 1 < U32_MOD
    ∧ ((enemy_fire_hit_player_system (some sampleEnemy) [sampleFire] 0 ⟨true, -1⟩ 0).score = 0
      ∧ satSubU32 0 5 = 0
      ∧ wrapSub1U32 1 = 1 - 1
      ∧ 1 - 1 < 1) :=
  ⟨by decide, by decide,
    score_saturates_and_count_decrements sampleEnemy [sampleFire] ⟨true, -1⟩ 0 1 5
      (by decide) (by decide)⟩

/-- Helper: a respawn check strictly inside the respawn window does nothing:
with the state freshly shot at time `T ≥ 0` (so the sentinel is off) and the
check time at most `T + PLAYER_RESPAWN_DELAY`, no player is spawned. -/
theorem respawn_check_blocked (winH T t : ℚ) (hT : 0 ≤ T)
    (ht : t ≤ T + PLAYER_RESPAWN_DELAY) :
    player_spawn_system winH ⟨false, T⟩ t = (⟨false, T⟩, none) := by
  unfold player_spawn_system
  rw [if_neg]
  rintro ⟨-, h1 | h1⟩
  · simp only at h1
    rw [h1] at hT
    norm_num at hT
  · simp only at h1
    exact absurd ht (not_le.mpr h1)

/-- Helper: the player stays absent across any sequence of respawn checks
whose times all lie within the respawn window. -/
theorem respawn_window_hold (winH T : ℚ) (hT : 0 ≤ T) (ts : List ℚ)
    (hts : ∀ t ∈ ts, t ≤ T + PLAYER_RESPAWN_DELAY) :
    runRespawnChecks winH ⟨false, T⟩ ts = ⟨false, T⟩ := by
  induction ts with
  | nil => rfl
  | cons t ts ih =>
      have ht := hts t (List.mem_cons_self t ts)
      show runRespawnChecks winH (player_spawn_system winH ⟨false, T⟩ t).1 ts = _
      rw [respawn_check_blocked winH T t hT ht]
      exact ih fun t' ht' => hts t' (List.mem_cons_of_mem _ ht')

/-- Claim C7: `player_spawn_system` spawns a player exactly when no live
player exists and the last-shot sentinel is `-1` or the respawn delay has
strictly elapsed; after a death at time `T ≥ 0` every respawn check at a
time up to `T + PLAYER_RESPAWN_DELAY` spawns nothing and leaves the state
dead, and the first check strictly after `T + PLAYER_RESPAWN_DELAY` spawns a
player at the fixed bottom-of-screen position and marks the state on. -/
theorem player_respawn_delay (winH : ℚ) (st0 : PlayerState) (T : ℚ) (hT : 0 ≤ T)
    (ts : List ℚ) (hts : ∀ t ∈ ts, t ≤ T + PLAYER_RESPAWN_DELAY)
    (tmid : ℚ) (htmid : tmid ≤ T + PLAYER_RESPAWN_DELAY)
    (t' : ℚ) (ht' : T + PLAYER_RESPAWN_DELAY < t')
    (st : PlayerState) (now : ℚ) :
    ((player_spawn_system winH st now).2 ≠ none ↔
      st.isOn = false ∧ (st.lastShot = -1 ∨ now > st.lastShot + PLAYER_RESPAWN_DELAY))
    ∧ (player_spawn_system winH (PlayerState.shot st0 T) tmid).2 = none
    ∧ runRespawnChecks winH (PlayerState.shot st0 T) ts = PlayerState.shot st0 T
    ∧ (player_spawn_system winH (runRespawnChecks winH (PlayerState.shot st0 T) ts) t').1.isOn
        = true
    ∧ (player_spawn_system winH (runRespawnChecks winH (PlayerState.shot st0 T) ts) t').2
        = some (playerSpawnPos winH) := by
  have hdead : PlayerState.shot st0 T = ⟨false, T⟩ := rfl
  have hhold : runRespawnChecks winH (PlayerState.shot st0 T) ts = PlayerState.shot st0 T := by
    rw [hdead]
    exact respawn_window_hold winH T hT ts hts
  have hfire : player_spawn_system winH ⟨false, T⟩ t'
      = ((⟨false, T⟩ : PlayerState).spawned, some (playerSpawnPos winH)) := by
    unfold player_spawn_system
    rw [if_pos ⟨rfl, Or.inr (by simpa using ht')⟩]
  refine ⟨?_, ?_, hhold, ?_, ?_⟩
  · unfold player_spawn_system
    by_cases h : st.isOn = false ∧ (st.lastShot = -1 ∨ now > st.lastShot + PLAYER_RESPAWN_DELAY)
    · rw [if_pos h]
      exact iff_of_true (by simp) h
    · rw [if_neg h]
      exact iff_of_false (by simp) h
  · rw [hdead, respawn_check_blocked winH T tmid hT htmid]
  · rw [hhold, hdead, hfire]
    rfl
  · rw [hhold, hdead, hfire]

/-- Witness for claim C7 at concrete inputs (death at T = 0, in-window
checks at times 1 and 2, respawning check at time 3). -/
theorem player_respawn_delay_witness :
    (0 : ℚ) ≤ 0
    ∧ (∀ t ∈ [(1 : ℚ), 2], t ≤ 0 + PLAYER_RESPAWN_DELAY)
    ∧ (2 : ℚ) ≤ 0 + PLAYER_RESPAWN_DELAY
    ∧ 0 + PLAYER_RESPAWN_DELAY < (3 : ℚ)
    ∧ (((player_spawn_system 720 ⟨false, -1⟩ 0).2 ≠ none ↔
        (⟨false, -1⟩ : PlayerState).isOn = false
          ∧ ((⟨false, -1⟩ : PlayerState).lastShot = -1
            ∨ (0 : ℚ) > (⟨false, -1⟩ : PlayerState).lastShot + PLAYER_RESPAWN_DELAY))
      ∧ (player_spawn_system 720 (PlayerState.shot ⟨true, -1⟩ 0) 2).2 = none
      ∧ runRespawnChecks 720 (PlayerState.shot ⟨true, -1⟩ 0) [1, 2]
          = PlayerState.shot ⟨true, -1⟩ 0
      ∧ (player_spawn_system 720
            (runRespawnChecks 720 (PlayerState.shot ⟨true, -1⟩ 0) [1, 2]) 3).1.isOn = true
      ∧ (player_spawn_system 720
            (runRespawnChecks 720 (PlayerState.shot ⟨true, -1⟩ 0) [1, 2]) 3).2
          = some (playerSpawnPos 720)) :=
  ⟨le_refl 0,
    by intro t ht; fin_cases ht <;> norm_num [PLAYER_RESPAWN_DELAY],
    by norm_num [PLAYER_RESPAWN_DELAY],
    by norm_num [PLAYER_RESPAWN_DELAY],
    player_respawn_delay 720 ⟨true, -1⟩ 0 (le_refl 0) [1, 2]
      (by intro t ht; fin_cases ht <;> norm_num [PLAYER_RESPAWN_DELAY])
      2 (by norm_num [PLAYER_RESPAWN_DELAY])
      3 (by norm_num [PLAYER_RESPAWN_DELAY]) ⟨false, -1⟩ 0⟩

/-- Witness for claim C10 at concrete inputs. -/
theorem player_enemy_despawn_paths_witness :
    playerArchetype.movable = some OnOutsideWindow.Wrap
    ∧ enemyArchetype.movable = none
    ∧ canDespawn DespawnSite.movableSystem playerArchetype = false
    ∧ canDespawn DespawnSite.movableSystem enemyArchetype = false
    ∧ canDespawn DespawnSite.explosionAnim playerArchetype
        = decide (DespawnSite.explosionAnim = DespawnSite.enemyFireHitPlayer)
    ∧ canDespawn DespawnSite.explosionAnim enemyArchetype
        = decide (DespawnSite.explosionAnim = DespawnSite.playerFireHitEnemy)
    ∧ (movable_system 1280 720 ⟨0, 0⟩ 0 0 OnOutsideWindow.Wrap).isSome = true :=
  player_enemy_despawn_paths DespawnSite.explosionAnim 1280 720 ⟨0, 0⟩ 0 0

/-- Helper: the distance to the target is nonnegative. -/
theorem distTo_nonneg (f : Formation) (xorg yorg : ℝ) : 0 ≤ distTo f xorg yorg :=
  Real.sqrt_nonneg _

/-- Helper: the cast time step is positive. -/
theorem timeStep_cast_pos : (0 : ℝ) < (TIME_STEP : ℝ) := by
  norm_num [TIME_STEP]

/-- Helper: `max_distance` is nonnegative for a nonnegative speed. -/
theorem maxDistance_nonneg (f : Formation) (hs : 0 ≤ f.speed) :
    0 ≤ maxDistance f :=
  mul_nonneg timeStep_cast_pos.le hs

/-- Helper: the distance ratio is nonnegative for a nonnegative speed. -/
theorem distanceRatio_nonneg (f : Formation) (xorg yorg : ℝ) (hs : 0 ≤ f.speed) :
    0 ≤ distanceRatio f xorg yorg := by
  unfold distanceRatio
  split
  · exact div_nonneg (maxDistance_nonneg f hs) (distTo_nonneg f xorg yorg)
  · exact le_refl 0

/-- Helper: the per-axis overshoot clamp of the movement step equals a step
by the ratio capped at 1. -/
theorem clampToward (xo xd r : ℝ) (hr : 0 ≤ r) :
    (if xo - xd > 0 then max (xo - (xo - xd) * r) xd else min (xo - (xo - xd) * r) xd)
      = xo - (xo - xd) * min r 1 := by
  rcases lt_trichotomy (xo - xd) 0 with hd | hd | hd
  · rw [if_neg (by linarith : ¬ xo - xd > 0)]
    rcases le_total r 1 with h1 | h1
    · rw [min_eq_left h1, min_eq_left (by nlinarith)]
    · rw [min_eq_right h1, min_eq_right (by nlinarith)]
      ring
  · have hxd : xd = xo := by linarith
    subst hxd
    simp
  · rw [if_pos hd]
    rcases le_total r 1 with h1 | h1
    · rw [min_eq_left h1, max_eq_left (by nlinarith)]
    · rw [min_eq_right h1, max_eq_right (by nlinarith)]
      ring

/-- Helper: closed form of the x component computed by
`enemy_movement_system`. -/
theorem enemy_movement_fst (f : Formation) (xorg yorg : ℝ) (hs : 0 ≤ f.speed) :
    (enemy_movement_system f xorg yorg).1
      = xorg - (xorg - targetX f) * min (distanceRatio f xorg yorg) 1 := by
  have h := clampToward xorg (targetX f) (distanceRatio f xorg yorg)
    (distanceRatio_nonneg f xorg yorg hs)
  simpa only [enemy_movement_system] using h

/-- Helper: closed form of the y component computed by
`enemy_movement_system`. -/
theorem enemy_movement_snd (f : Formation) (xorg yorg : ℝ) (hs : 0 ≤ f.speed) :
    (enemy_movement_system f xorg yorg).2.1
      = yorg - (yorg - targetY f) * min (distanceRatio f xorg yorg) 1 := by
  have h := clampToward yorg (targetY f) (distanceRatio f xorg yorg)
    (distanceRatio_nonneg f xorg yorg hs)
  simpa only [enemy_movement_system] using h

/-- Helper: the formation returned by `enemy_movement_system`. -/
theorem enemy_movement_formation (f : Formation) (xorg yorg : ℝ) :
    (enemy_movement_system f xorg yorg).2.2
      = if distTo f xorg yorg < maxDistance f * f.speed / 20
        then { f with angle := advancedAngle f } else f := rfl

/-- Helper: pure arithmetic bound behind the per-tick movement cap: a step
by the capped ratio moves the point by at most `md` in squared norm. -/
theorem move_sq_le_aux (dx dy md D r : ℝ) (hmd : 0 ≤ md) (hD0 : 0 ≤ D)
    (hDsq : D * D = dx * dx + dy * dy)
    (hr : r = if D ≠ 0 then md / D else 0) :
    dx * min r 1 * (dx * min r 1) + dy * min r 1 * (dy * min r 1) ≤ md * md := by
  by_cases hz : D = 0
  · rw [if_neg (by simp [hz])] at hr
    rw [hr]
    simp only [min_eq_left zero_le_one, mul_zero, zero_mul, add_zero]
    positivity
  · have hDpos : 0 < D := hD0.lt_of_ne (Ne.symm hz)
    rw [if_pos hz] at hr
    rcases le_total r 1 with h1 | h1
    · rw [min_eq_left h1, hr]
      have heq : dx * (md / D) * (dx * (md / D)) + dy * (md / D) * (dy * (md / D))
          = md * md := by
        field_simp
        nlinarith [hDsq]
      exact le_of_eq heq
    · rw [min_eq_right h1]
      have hDmd : D ≤ md := by
        rw [hr] at h1
        exact (one_le_div hDpos).mp h1
      nlinarith [hDsq, mul_self_le_mul_self hD0 hDmd]

/-- Helper: a step by a fraction `m ∈ [0, 1]` of the way toward a target
stays between the start and the target. -/
theorem seg_bound (a d m : ℝ) (h0 : 0 ≤ m) (h1 : m ≤ 1) :
    min a (a - d) ≤ a - d * m ∧ a - d * m ≤ max a (a - d) := by
  rcases le_total 0 d with h | h
  · constructor
    · rw [min_eq_right (by linarith)]
      nlinarith
    · rw [max_eq_left (by linarith)]
      nlinarith
  · constructor
    · rw [min_eq_left (by linarith)]
      nlinarith
    · rw [max_eq_right (by linarith)]
      nlinarith

/-- Claim C6: each tick of `enemy_movement_system` (for a nonnegative
formation speed) moves the enemy by at most `max_distance = TIME_STEP *
speed`; the per-axis clamping keeps each coordinate between its old value
and the target coordinate (the entity never passes the target); and the
advanced angle is committed into the formation exactly when the remaining
distance to the target is below `max_distance * speed / 20`, the stored
angle being left unchanged otherwise. -/
theorem enemy_movement_continuity (f : Formation) (xorg yorg : ℝ)
    (hs : 0 ≤ f.speed) :
    Real.sqrt (((enemy_movement_system f xorg yorg).1 - xorg)
          * ((enemy_movement_system f xorg yorg).1 - xorg)
        + ((enemy_movement_system f xorg yorg).2.1 - yorg)
          * ((enemy_movement_system f xorg yorg).2.1 - yorg))
      ≤ maxDistance f
    ∧ min xorg (targetX f) ≤ (enemy_movement_system f xorg yorg).1
    ∧ (enemy_movement_system f xorg yorg).1 ≤ max xorg (targetX f)
    ∧ min yorg (targetY f) ≤ (enemy_movement_system f xorg yorg).2.1
    ∧ (enemy_movement_system f xorg yorg).2.1 ≤ max yorg (targetY f)
    ∧ (enemy_movement_system f xorg yorg).2.2.angle
        = (if distTo f xorg yorg < maxDistance f * f.speed / 20
           then advancedAngle f else f.angle) := by
  have hfst := enemy_movement_fst f xorg yorg hs
  have hsnd := enemy_movement_snd f xorg yorg hs
  have hm0 : 0 ≤ min (distanceRatio f xorg yorg) 1 :=
    le_min (distanceRatio_nonneg f xorg yorg hs) zero_le_one
  have hm1 : min (distanceRatio f xorg yorg) 1 ≤ 1 := min_le_right _ _
  have hmd : 0 ≤ maxDistance f := maxDistance_nonneg f hs
  refine ⟨?_, ?_, ?_, ?_, ?_, ?_⟩
  · rw [hfst, hsnd]
    have hsq : (xorg - (xorg - targetX f) * min (distanceRatio f xorg yorg) 1 - xorg)
          * (xorg - (xorg - targetX f) * min (distanceRatio f xorg yorg) 1 - xorg)
        + (yorg - (yorg - targetY f) * min (distanceRatio f xorg yorg) 1 - yorg)
          * (yorg - (yorg - targetY f) * min (distanceRatio f xorg yorg) 1 - yorg)
        = (xorg - targetX f) * min (distanceRatio f xorg yorg) 1
            * ((xorg - targetX f) * min (distanceRatio f xorg yorg) 1)
          + (yorg - targetY f) * min (distanceRatio f xorg yorg) 1
            * ((yorg - targetY f) * min (distanceRatio f xorg yorg) 1) := by
      ring
    rw [hsq]
    have hbound := move_sq_le_aux (xorg - targetX f) (yorg - targetY f)
      (maxDistance f) (distTo f xorg yorg) (distanceRatio f xorg yorg) hmd
      (distTo_nonneg f xorg yorg)
      (Real.mul_self_sqrt (add_nonneg (mul_self_nonneg _) (mul_self_nonneg _)))
      rfl
    calc Real.sqrt _ ≤ Real.sqrt (maxDistance f * maxDistance f) :=
          Real.sqrt_le_sqrt hbound
      _ = maxDistance f := Real.sqrt_mul_self hmd
  · rw [hfst]
    have h := (seg_bound xorg (xorg - targetX f) _ hm0 hm1).1
    simpa using h
  · rw [hfst]
    have h := (seg_bound xorg (xorg - targetX f) _ hm0 hm1).2
    simpa using h
  · rw [hsnd]
    have h := (seg_bound yorg (yorg - targetY f) _ hm0 hm1).1
    simpa using h
  · rw [hsnd]
    have h := (seg_bound yorg (yorg - targetY f) _ hm0 hm1).2
    simpa using h
  · rw [enemy_movement_formation, apply_ite Formation.angle]

/-- Witness for claim C6 at concrete inputs. -/
theorem enemy_movement_continuity_witness :
    0 ≤ sampleFormation.speed
    ∧ (Real.sqrt (((enemy_movement_system sampleFormation 0 0).1 - 0)
            * ((enemy_movement_system sampleFormation 0 0).1 - 0)
          + ((enemy_movement_system sampleFormation 0 0).2.1 - 0)
            * ((enemy_movement_system sampleFormation 0 0).2.1 - 0))
        ≤ maxDistance sampleFormation
      ∧ min 0 (targetX sampleFormation) ≤ (enemy_movement_system sampleFormation 0 0).1
      ∧ (enemy_movement_system sampleFormation 0 0).1 ≤ max 0 (targetX sampleFormation)
      ∧ min 0 (targetY sampleFormation) ≤ (enemy_movement_system sampleFormation 0 0).2.1
      ∧ (enemy_movement_system sampleFormation 0 0).2.1 ≤ max 0 (targetY sampleFormation)
      ∧ (enemy_movement_system sampleFormation 0 0).2.2.angle
          = (if distTo sampleFormation 0 0
                < maxDistance sampleFormation * sampleFormation.speed / 20
             then advancedAngle sampleFormation else sampleFormation.angle)) :=
  ⟨by norm_num [sampleFormation],
    enemy_movement_continuity sampleFormation 0 0 (by norm_num [sampleFormation])⟩

/-- Helper: the sample formation's target point is (1, 0). -/
theorem sampleFormation_target :
    targetX sampleFormation = 1 ∧ targetY sampleFormation = 0 := by
  have hang : advancedAngle sampleFormation = 0 := by
    simp [advancedAngle, sampleFormation]
  constructor
  · rw [targetX, hang, Real.cos_zero]
    norm_num [sampleFormation]
  · rw [targetY, hang, Real.sin_zero]
    norm_num [sampleFormation]

/-- Helper: the sample formation's target point is at distance zero from
itself. -/
theorem sampleFormation_distTo_self : distTo sampleFormation 1 0 = 0 := by
  obtain ⟨hx, hy⟩ := sampleFormation_target
  simp [distTo, hx, hy]

/-- Helper: the origin is at distance one from the sample formation's
target point. -/
theorem sampleFormation_distTo_origin : distTo sampleFormation 0 0 ≠ 0 := by
  obtain ⟨hx, hy⟩ := sampleFormation_target
  rw [distTo, hx, hy]
  norm_num

/-- Claim C9: the distance-ratio computation of `enemy_movement_system` has
an explicit zero branch - when the entity is exactly on its target point the
ratio is 0 and the movement step leaves the position unchanged - and the
division `max_distance / distance` is evaluated only under the hypothesis
that the distance is nonzero. -/
theorem distance_ratio_zero_guard (f : Formation) (xorg yorg : ℝ)
    (h0 : distTo f xorg yorg = 0) (xq yq : ℝ) (hne : distTo f xq yq ≠ 0) :
    distanceRatio f xorg yorg = 0
    ∧ (enemy_movement_system f xorg yorg).1 = xorg
    ∧ (enemy_movement_system f xorg yorg).2.1 = yorg
    ∧ distanceRatio f xq yq = maxDistance f / distTo f xq yq := by
  have hzero : (xorg - targetX f) * (xorg - targetX f)
      + (yorg - targetY f) * (yorg - targetY f) = 0 := by
    have := Real.mul_self_sqrt (show 0 ≤ (xorg - targetX f) * (xorg - targetX f)
      + (yorg - targetY f) * (yorg - targetY f)
      from add_nonneg (mul_self_nonneg _) (mul_self_nonneg _))
    rw [show Real.sqrt ((xorg - targetX f) * (xorg - targetX f)
      + (yorg - targetY f) * (yorg - targetY f)) = distTo f xorg yorg from rfl, h0] at this
    linarith
  have hdx : xorg - targetX f = 0 := by
    nlinarith [mul_self_nonneg (xorg - targetX f), mul_self_nonneg (yorg - targetY f)]
  have hdy : yorg - targetY f = 0 := by
    nlinarith [mul_self_nonneg (xorg - targetX f), mul_self_nonneg (yorg - targetY f)]
  have hr0 : distanceRatio f xorg yorg = 0 := by
    unfold distanceRatio
    rw [if_neg (by simp [h0])]
  refine ⟨hr0, ?_, ?_, ?_⟩
  · have h := clampToward xorg (targetX f) (distanceRatio f xorg yorg) (le_of_eq hr0.symm)
    rw [show (enemy_movement_system f xorg yorg).1
        = (if xorg - targetX f > 0
           then max (xorg - (xorg - targetX f) * distanceRatio f xorg yorg) (targetX f)
           else min (xorg - (xorg - targetX f) * distanceRatio f xorg yorg) (targetX f))
        from rfl, h, hdx]
    ring
  · have h := clampToward yorg (targetY f) (distanceRatio f xorg yorg) (le_of_eq hr0.symm)
    rw [show (enemy_movement_system f xorg yorg).2.1
        = (if yorg - targetY f > 0
           then max (yorg - (yorg - targetY f) * distanceRatio f xorg yorg) (targetY f)
           else min (yorg - (yorg - targetY f) * distanceRatio f xorg yorg) (targetY f))
        from rfl, h, hdy]
    ring
  · unfold distanceRatio
    rw [if_pos hne]

/-- Witness for claim C9 at concrete inputs. -/
theorem distance_ratio_zero_guard_witness :
    distTo sampleFormation 1 0 = 0
    ∧ distTo sampleFormation 0 0 ≠ 0
    ∧ (distanceRatio sampleFormation 1 0 = 0
      ∧ (enemy_movement_system sampleFormation 1 0).1 = 1
      ∧ (enemy_movement_system sampleFormation 1 0).2.1 = 0
      ∧ distanceRatio sampleFormation 0 0
          = maxDistance sampleFormation / distTo sampleFormation 0 0) :=
  ⟨sampleFormation_distTo_self, sampleFormation_distTo_origin,
    distance_ratio_zero_guard sampleFormation 1 0 sampleFormation_distTo_self 0 0
      sampleFormation_distTo_origin⟩

end MonkeyFire
